import Mathlib
set_option maxRecDepth 40000

/-!
Verification of `create_icon.py`: a script that writes a fixed SVG document
to the file `appicon.svg` in the working directory and prints a confirmation
line.  The script is embedded as a transition on an explicit world state
(file system, open handles, standard output, and an event trace), with two
environment flags modelling the two ways the file operations can fail:
`writable` (the directory permits creating/truncating the file) and
`writeOk` (the write call itself succeeds).
-/

/-- The SVG document literal `svg_content` from `create_icon.py` (lines 4-14):
a Python triple-quoted string whose lines are joined by newlines, starting at
`<?xml` and ending at `</svg>` with no trailing newline. -/
def svg_content : String :=
  "<?xml version=\"1.0\" encoding=\"UTF-8\"?>\n<svg width=\"1024\" height=\"1024\" viewBox=\"0 0 1024 1024\" xmlns=\"http://www.w3.org/2000/svg\">\n  <defs>\n    <linearGradient id=\"grad\" x1=\"0%\" y1=\"0%\" x2=\"100%\" y2=\"100%\">\n      <stop offset=\"0%\" style=\"stop-color:#0088cc;stop-opacity:1\" />\n      <stop offset=\"100%\" style=\"stop-color:#00a8ff;stop-opacity:1\" />\n    </linearGradient>\n  </defs>\n  <rect width=\"1024\" height=\"1024\" rx=\"230\" fill=\"url(#grad)\"/>\n  <path d=\"M512 256 L768 512 L512 768 L512 600 L256 600 L256 424 L512 424 Z\" fill=\"white\" transform=\"translate(0, 50)\"/>\n</svg>"

/-- Observable I/O events of the script, in the order they are performed. -/
inductive Event where
  | openW (name : String)
  | write (name : String) (data : String)
  | close (name : String)
  | print (line : String)
deriving DecidableEq, Repr

/-- World state: the file system (name to content, `none` when the file is
absent), the currently open file handles, accumulated standard output, the
trace of events performed so far, and the two environment flags that decide
whether the file operations succeed. -/
structure World where
  files : String → Option String
  openHandles : List String
  stdout : String
  events : List Event
  writable : Bool
  writeOk : Bool

/-- `open(n, 'w')`: create or truncate file `n` and acquire a handle. -/
def doOpen (w : World) (n : String) : World :=
  { w with
    files := fun m => if m = n then some "" else w.files m,
    openHandles := n :: w.openHandles,
    events := w.events ++ [Event.openW n] }

/-- `f.write(data)`: append `data` to the (already truncated) file `n`. -/
def doWrite (w : World) (n : String) (data : String) : World :=
  { w with
    files := fun m => if m = n then some (((w.files n).getD "") ++ data) else w.files m,
    events := w.events ++ [Event.write n data] }

/-- Leaving the `with` block (normally or via an exception): release the
handle on `n`. -/
def doClose (w : World) (n : String) : World :=
  { w with
    openHandles := w.openHandles.erase n,
    events := w.events ++ [Event.close n] }

/-- `print(line)`: append `line` plus a newline to standard output. -/
def doPrint (w : World) (line : String) : World :=
  { w with
    stdout := w.stdout ++ line ++ "\n",
    events := w.events ++ [Event.print line] }

/-- The file-system errors the script can encounter: the open fails
(no write permission in the working directory) or the write fails. -/
inductive FsError where
  | permissionDenied
  | ioError
deriving DecidableEq, Repr

/-- Result of a run: the final world, and the unhandled error, if any. -/
structure RunResult where
  world : World
  error : Option FsError

/-- Embedding of `create_icon.py` (lines 16-19): open `appicon.svg` for
writing (create or truncate), write `svg_content`, close the handle, print
the confirmation.  The `with` statement closes the handle even when the
write raises, and an error propagates unhandled, skipping the print. -/
def run (w : World) : RunResult :=
  if w.writable then
    let w1 := doOpen w "appicon.svg"
    if w.writeOk then
      let w2 := doWrite w1 "appicon.svg" svg_content
      let w3 := doClose w2 "appicon.svg"
      let w4 := doPrint w3 "Icon SVG created"
      ⟨w4, none⟩
    else
      ⟨doClose w1 "appicon.svg", some FsError.ioError⟩
  else
    ⟨w, some FsError.permissionDenied⟩

/-- Process exit status: 0 on success, nonzero when an error propagated. -/
def exitCode (r : RunResult) : Nat :=
  match r.error with
  | none => 0
  | some _ => 1

/-- The events performed by this run (the trace extension beyond whatever
the initial world already recorded). -/
def newEvents (w : World) : List Event :=
  ((run w).world.events).drop w.events.length

/-- A clean initial world: empty file system, no handles, empty output,
both file operations succeed. -/
def w0 : World :=
  { files := fun _ => none, openHandles := [], stdout := "", events := [],
    writable := true, writeOk := true }

-- Helper lemmas characterising `run`.

theorem run_success_eq (w : World) (hW : w.writable = true) (hOk : w.writeOk = true) :
    run w = ⟨doPrint (doClose (doWrite (doOpen w "appicon.svg") "appicon.svg" svg_content)
      "appicon.svg") "Icon SVG created", none⟩ := by
  simp [run, hW, hOk]

theorem run_writefail_eq (w : World) (hW : w.writable = true) (hOk : w.writeOk = false) :
    run w = ⟨doClose (doOpen w "appicon.svg") "appicon.svg", some FsError.ioError⟩ := by
  simp [run, hW, hOk]

theorem run_noperm_eq (w : World) (hW : w.writable = false) :
    run w = ⟨w, some FsError.permissionDenied⟩ := by
  simp [run, hW]

theorem run_files_char (w : World) :
    (run w).world.files = fun m =>
      if w.writable = true ∧ m = "appicon.svg" then
        some (if w.writeOk = true then svg_content else "")
      else w.files m := by
  funext m
  cases hW : w.writable
  · rw [run_noperm_eq w hW]
    simp [hW]
  · cases hOk : w.writeOk
    · rw [run_writefail_eq w hW hOk]
      by_cases hm : m = "appicon.svg" <;> simp [doOpen, doClose, hW, hOk, hm]
    · rw [run_success_eq w hW hOk]
      by_cases hm : m = "appicon.svg" <;>
        simp [doOpen, doWrite, doClose, doPrint, hW, hOk, hm]

theorem run_success_file (w : World) (hW : w.writable = true) (hOk : w.writeOk = true) :
    (run w).world.files "appicon.svg" = some svg_content := by
  rw [run_files_char w]
  simp [hW, hOk]

theorem run_file_frame (w : World) (n : String) (hn : n ≠ "appicon.svg") :
    (run w).world.files n = w.files n := by
  rw [run_files_char w]
  simp [hn]

theorem run_success_stdout (w : World) (hW : w.writable = true) (hOk : w.writeOk = true) :
    (run w).world.stdout = w.stdout ++ "Icon SVG created\n" := by
  rw [run_success_eq w hW hOk]
  simp [doOpen, doWrite, doClose, doPrint]
  rw [String.append_assoc]
  rfl

theorem run_success_events (w : World) (hW : w.writable = true) (hOk : w.writeOk = true) :
    (run w).world.events = w.events ++
      [Event.openW "appicon.svg", Event.write "appicon.svg" svg_content,
       Event.close "appicon.svg", Event.print "Icon SVG created"] := by
  rw [run_success_eq w hW hOk]
  simp [doOpen, doWrite, doClose, doPrint]

theorem run_success_newEvents (w : World) (hW : w.writable = true) (hOk : w.writeOk = true) :
    newEvents w =
      [Event.openW "appicon.svg", Event.write "appicon.svg" svg_content,
       Event.close "appicon.svg", Event.print "Icon SVG created"] := by
  unfold newEvents
  rw [run_success_events w hW hOk, List.drop_left]

theorem run_writefail_newEvents (w : World) (hW : w.writable = true) (hOk : w.writeOk = false) :
    newEvents w = [Event.openW "appicon.svg", Event.close "appicon.svg"] := by
  unfold newEvents
  rw [run_writefail_eq w hW hOk]
  simp [doOpen, doClose]

theorem run_noperm_newEvents (w : World) (hW : w.writable = false) :
    newEvents w = [] := by
  unfold newEvents
  rw [run_noperm_eq w hW]
  simp

theorem run_handles (w : World) :
    (run w).world.openHandles = w.openHandles := by
  cases hW : w.writable
  · rw [run_noperm_eq w hW]
  · cases hOk : w.writeOk
    · rw [run_writefail_eq w hW hOk]
      simp [doOpen, doClose]
    · rw [run_success_eq w hW hOk]
      simp [doOpen, doWrite, doClose, doPrint]

theorem run_error_char (w : World) :
    (run w).error = if w.writable = true then
      (if w.writeOk = true then none else some FsError.ioError)
    else some FsError.permissionDenied := by
  cases hW : w.writable
  · rw [run_noperm_eq w hW]
    simp [hW]
  · cases hOk : w.writeOk
    · rw [run_writefail_eq w hW hOk]
      simp [hW, hOk]
    · rw [run_success_eq w hW hOk]
      simp [hW, hOk]

theorem run_fail_stdout (w : World) (h : (run w).error ≠ none) :
    (run w).world.stdout = w.stdout := by
  cases hW : w.writable
  · rw [run_noperm_eq w hW]
  · cases hOk : w.writeOk
    · rw [run_writefail_eq w hW hOk]
      simp [doOpen, doClose]
    · exfalso
      apply h
      rw [run_success_eq w hW hOk]

theorem run_flags (w : World) :
    (run w).world.writable = w.writable ∧ (run w).world.writeOk = w.writeOk := by
  cases hW : w.writable
  · rw [run_noperm_eq w hW]
    exact ⟨hW, rfl⟩
  · cases hOk : w.writeOk
    · rw [run_writefail_eq w hW hOk]
      constructor <;> simp [doOpen, doClose, hW, hOk]
    · rw [run_success_eq w hW hOk]
      constructor <;> simp [doOpen, doWrite, doClose, doPrint, hW, hOk]

theorem newEvents_char (w : World) :
    newEvents w =
      if w.writable = true then
        if w.writeOk = true then
          [Event.openW "appicon.svg", Event.write "appicon.svg" svg_content,
           Event.close "appicon.svg", Event.print "Icon SVG created"]
        else [Event.openW "appicon.svg", Event.close "appicon.svg"]
      else [] := by
  cases hW : w.writable
  · rw [run_noperm_newEvents w hW]
    simp [hW]
  · cases hOk : w.writeOk
    · rw [run_writefail_newEvents w hW hOk]
      simp [hW, hOk]
    · rw [run_success_newEvents w hW hOk]
      simp [hW, hOk]

/-- A world whose file system already holds an `appicon.svg` with other
content (to exercise the overwrite path). -/
def w1 : World :=
  { files := fun n => if n = "appicon.svg" then some "old content" else none,
    openHandles := [], stdout := "", events := [],
    writable := true, writeOk := true }

-- Claim theorems.

/-- C1: for every prior state of the working directory (the target file
absent, or present with arbitrary content), a run whose file operations
succeed creates or truncates `appicon.svg` and leaves it containing exactly
`svg_content`, nothing appended or altered beyond the literal (last-writer-
wins overwrite); every character of the literal is ASCII, so its UTF-8
encoding is exactly the literal's characters. -/
theorem C1_writes_exact_content (w : World)
    (hW : w.writable = true) (hOk : w.writeOk = true) :
    (run w).world.files "appicon.svg" = some svg_content ∧
    svg_content.data.all (fun c => c.toNat < 128) = true :=
  ⟨run_success_file w hW hOk, by decide⟩

/-- Witness for C1 at the clean initial world. -/
theorem C1_witness :
    (run w0).world.files "appicon.svg" = some svg_content ∧
    svg_content.data.all (fun c => c.toNat < 128) = true :=
  C1_writes_exact_content w0 rfl rfl

/-- C2: determinism — any two successful runs, whatever the rest of the two
file systems look like, write byte-identical contents to `appicon.svg`,
namely the constant `svg_content`, which depends on no input, randomness,
or branching. -/
theorem C2_deterministic (w w' : World)
    (hW : w.writable = true) (hOk : w.writeOk = true)
    (hW' : w'.writable = true) (hOk' : w'.writeOk = true) :
    (run w).world.files "appicon.svg" = (run w').world.files "appicon.svg" ∧
    (run w).world.files "appicon.svg" = some svg_content := by
  rw [run_success_file w hW hOk, run_success_file w' hW' hOk']
  exact ⟨rfl, rfl⟩

/-- Witness for C2: a clean world and a world with a pre-existing file. -/
theorem C2_witness :
    (run w0).world.files "appicon.svg" = (run w1).world.files "appicon.svg" ∧
    (run w0).world.files "appicon.svg" = some svg_content :=
  C2_deterministic w0 w1 rfl rfl rfl rfl

/-- C3: idempotence — running the operation twice in succession leaves the
file system in exactly the state one run produces, in every case (the second
successful run overwrites `appicon.svg` with identical bytes). -/
theorem C3_idempotent (w : World) :
    (run (run w).world).world.files = (run w).world.files := by
  have hfl := run_flags w
  funext m
  rw [run_files_char (run w).world, hfl.1, hfl.2]
  by_cases hm : m = "appicon.svg"
  · cases hW : w.writable
    · simp [hW]
    · rw [run_files_char w]
      cases hOk : w.writeOk <;> simp [hW, hOk, hm]
  · simp [hm]

/-- C4: a successful run appends exactly one confirmation line to standard
output, with exact text `Icon SVG created`, and its trace contains exactly
one print event, carrying that text. -/
theorem C4_confirmation_line (w : World)
    (hW : w.writable = true) (hOk : w.writeOk = true) :
    (run w).world.stdout = w.stdout ++ "Icon SVG created\n" ∧
    (newEvents w).filter
        (fun e => match e with | Event.print _ => true | _ => false) =
      [Event.print "Icon SVG created"] := by
  refine ⟨run_success_stdout w hW hOk, ?_⟩
  rw [run_success_newEvents w hW hOk]
  rfl

/-- Witness for C4 at the clean initial world. -/
theorem C4_witness :
    (run w0).world.stdout = w0.stdout ++ "Icon SVG created\n" ∧
    (newEvents w0).filter
        (fun e => match e with | Event.print _ => true | _ => false) =
      [Event.print "Icon SVG created"] :=
  C4_confirmation_line w0 rfl rfl

/-- C5: the produced file holds exactly `svg_content`, whose text opens with
the XML declaration followed by the `svg` root tag carrying
width, height, viewBox and the `http://www.w3.org/2000/svg` namespace, and
which contains the `linearGradient id="grad"` declaration, both stop colors
`#0088cc` and `#00a8ff`, and the arrow path data. -/
theorem C5_svg_structure (w : World)
    (hW : w.writable = true) (hOk : w.writeOk = true) :
    (run w).world.files "appicon.svg" = some svg_content ∧
    ("<?xml version=\"1.0\" encoding=\"UTF-8\"?>\n<svg ").data <+: svg_content.data ∧
    ("<svg width=\"1024\" height=\"1024\" viewBox=\"0 0 1024 1024\" xmlns=\"http://www.w3.org/2000/svg\">").data <:+: svg_content.data ∧
    ("linearGradient id=\"grad\"").data <:+: svg_content.data ∧
    ("#0088cc").data <:+: svg_content.data ∧
    ("#00a8ff").data <:+: svg_content.data ∧
    ("M512 256 L768 512 L512 768 L512 600 L256 600 L256 424 L512 424 Z").data <:+: svg_content.data :=
  ⟨run_success_file w hW hOk, by decide, by decide, by decide, by decide,
   by decide, by decide⟩

/-- Witness for C5 at the clean initial world. -/
theorem C5_witness :
    (run w0).world.files "appicon.svg" = some svg_content ∧
    ("<?xml version=\"1.0\" encoding=\"UTF-8\"?>\n<svg ").data <+: svg_content.data ∧
    ("<svg width=\"1024\" height=\"1024\" viewBox=\"0 0 1024 1024\" xmlns=\"http://www.w3.org/2000/svg\">").data <:+: svg_content.data ∧
    ("linearGradient id=\"grad\"").data <:+: svg_content.data ∧
    ("#0088cc").data <:+: svg_content.data ∧
    ("#00a8ff").data <:+: svg_content.data ∧
    ("M512 256 L768 512 L512 768 L512 600 L256 600 L256 424 L512 424 Z").data <:+: svg_content.data :=
  C5_svg_structure w0 rfl rfl

/-- C6: the run fails exactly when the open or the write fails; on failure
the error is one of the two file-system errors (the only failure modes), the
exit status is nonzero, no confirmation is printed, and standard output is
unchanged. -/
theorem C6_failure_modes (w : World) :
    ((run w).error = none ↔ (w.writable = true ∧ w.writeOk = true)) ∧
    ((run w).error ≠ none →
      (run w).world.stdout = w.stdout ∧
      exitCode (run w) = 1 ∧
      (∀ line, Event.print line ∉ newEvents w) ∧
      ((run w).error = some FsError.permissionDenied ∨
       (run w).error = some FsError.ioError)) := by
  constructor
  · rw [run_error_char w]
    cases hW : w.writable <;> cases hOk : w.writeOk <;> simp
  · intro h
    have hexit : exitCode (run w) = 1 := by
      unfold exitCode
      cases herr : (run w).error
      · exact absurd herr h
      · rfl
    refine ⟨run_fail_stdout w h, hexit, ?_, ?_⟩
    · intro line hmem
      rw [newEvents_char w] at hmem
      rw [run_error_char w] at h
      cases hW : w.writable <;> cases hOk : w.writeOk <;> simp_all
    · rw [run_error_char w] at h ⊢
      cases hW : w.writable <;> cases hOk : w.writeOk <;> simp_all

/-- C7: the handle on `appicon.svg` is released on every exit path — after
any run (success, failed open, or failed write partway) the open handles are
exactly what they were before the run. -/
theorem C7_handle_released (w : World) :
    (run w).world.openHandles = w.openHandles :=
  run_handles w

/-- C8: frame and no input — a run changes no file other than `appicon.svg`,
only appends to standard output, and reads nothing: the events performed and
the error returned depend only on the two permission flags, not on the prior
file system, handles, output, or trace. -/
theorem C8_frame_no_input (w w' : World) (n : String) (hn : n ≠ "appicon.svg") :
    (run w).world.files n = w.files n ∧
    (∃ out, (run w).world.stdout = w.stdout ++ out) ∧
    (w.writable = w'.writable → w.writeOk = w'.writeOk →
      newEvents w = newEvents w' ∧ (run w).error = (run w').error) := by
  refine ⟨run_file_frame w n hn, ?_, ?_⟩
  · cases hW : w.writable
    · refine ⟨"", ?_⟩
      rw [run_noperm_eq w hW]
      simp
    · cases hOk : w.writeOk
      · refine ⟨"", ?_⟩
        rw [run_writefail_eq w hW hOk]
        simp [doOpen, doClose]
      · exact ⟨"Icon SVG created\n", run_success_stdout w hW hOk⟩
  · intro h1 h2
    rw [newEvents_char w, newEvents_char w', run_error_char w, run_error_char w',
      h1, h2]
    exact ⟨rfl, rfl⟩

/-- Witness for C8: clean world versus a world with a pre-existing file, at
an unrelated file name. -/
theorem C8_witness :
    (run w0).world.files "readme.txt" = w0.files "readme.txt" ∧
    (∃ out, (run w0).world.stdout = w0.stdout ++ out) ∧
    (w0.writable = w1.writable → w0.writeOk = w1.writeOk →
      newEvents w0 = newEvents w1 ∧ (run w0).error = (run w1).error) :=
  C8_frame_no_input w0 w1 "readme.txt" (by decide)

/-- C9: temporal ordering — any run that prints the confirmation performed
exactly the sequence open, write, close, print (so the print came after the
write completed and the handle was closed), and in such a run the complete
file content is on disk. -/
theorem C9_print_after_complete_write (w : World)
    (h : Event.print "Icon SVG created" ∈ newEvents w) :
    newEvents w =
      [Event.openW "appicon.svg", Event.write "appicon.svg" svg_content,
       Event.close "appicon.svg", Event.print "Icon SVG created"] ∧
    (run w).world.files "appicon.svg" = some svg_content := by
  cases hW : w.writable
  · rw [run_noperm_newEvents w hW] at h
    simp at h
  · cases hOk : w.writeOk
    · rw [run_writefail_newEvents w hW hOk] at h
      simp at h
    · exact ⟨run_success_newEvents w hW hOk, run_success_file w hW hOk⟩

/-- Witness for C9 at the clean initial world. -/
theorem C9_witness :
    newEvents w0 =
      [Event.openW "appicon.svg", Event.write "appicon.svg" svg_content,
       Event.close "appicon.svg", Event.print "Icon SVG created"] ∧
    (run w0).world.files "appicon.svg" = some svg_content :=
  C9_print_after_complete_write w0 (by decide)

/-- C10: the file text ends with `</svg>` and carries no trailing newline
(the write adds nothing beyond the literal), while the confirmation on
standard output is the message followed by a newline appended by `print`. -/
theorem C10_trailing (w : World)
    (hW : w.writable = true) (hOk : w.writeOk = true) :
    ("</svg>").data <:+ svg_content.data ∧
    ¬ (("\n").data <:+ svg_content.data) ∧
    (run w).world.files "appicon.svg" = some svg_content ∧
    (run w).world.stdout = w.stdout ++ "Icon SVG created\n" :=
  ⟨by decide, by decide, run_success_file w hW hOk, run_success_stdout w hW hOk⟩

/-- Witness for C10 at the clean initial world. -/
theorem C10_witness :
    ("</svg>").data <:+ svg_content.data ∧
    ¬ (("\n").data <:+ svg_content.data) ∧
    (run w0).world.files "appicon.svg" = some svg_content ∧
    (run w0).world.stdout = w0.stdout ++ "Icon SVG created\n" :=
  C10_trailing w0 rfl rfl
